import Mathlib

/-!
Shallow embedding of the view layer of the blogicum blog application
(files blog/mixins.py and blog/views.py), together with theorems about
the visibility, authorization and pagination behaviour of its handlers.

The data model mirrors the Django models the views manipulate: users,
categories, posts (author, category, publish flag, publish timestamp)
and comments (post, author).  A request handler is embedded as a pure
function from the store, the requesting user (none for an anonymous
request) and the URL arguments to a response paired with the updated
store.  Timestamps are integers; "now" is passed explicitly.
-/

namespace Blogicum

/-- A user record: primary key and username. -/
structure User where
  id : Nat
  username : String
deriving DecidableEq, Repr

/-- A category record: primary key, slug and publish flag. -/
structure Category where
  id : Nat
  slug : String
  is_published : Bool
deriving DecidableEq, Repr

/-- A post record: primary key, author id, category id, publish flag,
publish timestamp and body text. -/
structure Post where
  id : Nat
  author : Nat
  category : Nat
  is_published : Bool
  pub_date : Int
  text : String
deriving DecidableEq, Repr

/-- A comment record: primary key, the id of the post it belongs to,
author id and body text. -/
structure Comment where
  id : Nat
  post : Nat
  author : Nat
  text : String
deriving DecidableEq, Repr

/-- The entity store backing the views. -/
structure Store where
  users : List User
  categories : List Category
  posts : List Post
  comments : List Comment
deriving DecidableEq, Repr

/-- Lookup of a post by primary key, as get_object_or_404(Post, pk=...) does;
none stands for the not-found outcome. -/
def findPost (s : Store) (pk : Nat) : Option Post :=
  s.posts.find? (fun p => p.id == pk)

/-- Lookup of a comment by primary key, as get_object_or_404(Comment, pk=...). -/
def findComment (s : Store) (pk : Nat) : Option Comment :=
  s.comments.find? (fun c => c.id == pk)

/-- Whether the category a post refers to exists and is published; this is the
join condition written category__is_published=True in the views. -/
def categoryIsPublished (s : Store) (cid : Nat) : Bool :=
  match s.categories.find? (fun c => c.id == cid) with
  | some c => c.is_published
  | none => false

/-- The slug of the category a post refers to, for the join condition
category__slug=... in the category listing. -/
def categorySlugOf (s : Store) (cid : Nat) : Option String :=
  (s.categories.find? (fun c => c.id == cid)).map (fun c => c.slug)

/-- The username of the author a post refers to, for the join condition
author__username=... in the profile listing. -/
def authorUsernameOf (s : Store) (uid : Nat) : Option String :=
  (s.users.find? (fun u => u.id == uid)).map (fun u => u.username)

/-- The number of comments associated with a post in the store; this is what
the Count aggregation over the comments relation computes. -/
def commentCountOf (s : Store) (pid : Nat) : Nat :=
  (s.comments.filter (fun c => c.post == pid)).length

/-- Whether the requesting user equals the user with the given id; an
anonymous requester never equals a stored user, as in Django where an
anonymous user compares unequal to every User instance. -/
def userEq (r : Option User) (uid : Nat) : Bool :=
  match r with
  | some u => u.id == uid
  | none => false

/-- The username of the requesting user; the empty string for an anonymous
request, as request.user.username is for an anonymous user. -/
def usernameOf (r : Option User) : String :=
  match r with
  | some u => u.username
  | none => ""

/-- Redirect targets used by the views (reverse of the named routes). -/
inductive Target where
  | login
  | index
  | postDetail (post_id : Nat)
  | profile (username : String)
deriving DecidableEq, Repr

/-- The observable response of a mutating or detail handler: a redirect, a
not-found response, or a rendered page. -/
inductive Response where
  | redirect (t : Target)
  | notFound
  | html
deriving DecidableEq, Repr

/-- The two request paths through an edit or delete view: the request that
displays the edit or confirmation form, and the request that performs the
mutation. -/
inductive Path where
  | displayForm
  | perform
deriving DecidableEq, Repr

/-- Embedding of PostsQuerySetMixin.get_queryset: posts with is_published=True and
pub_date__lte=now. -/
def PostsQuerySetMixin.get_queryset (s : Store) (now : Int) : List Post :=
  s.posts.filter (fun p => p.is_published && decide (p.pub_date ≤ now))

/-- The visibility filter as the specification words it: publish flag true,
publish timestamp less than or equal to now, and category published.
Stated here only to compare handler behaviour against the specification. -/
def specVisibilityFilter (s : Store) (now : Int) (p : Post) : Bool :=
  p.is_published && decide (p.pub_date ≤ now) && categoryIsPublished s p.category

/-- The filter PostDetailView.get_object applies for a requester other than
the author: is_published=True, category__is_published=True and
pub_date__lt=now (a strict inequality). -/
def strictVisibilityFilter (s : Store) (now : Int) (p : Post) : Bool :=
  p.is_published && categoryIsPublished s p.category && decide (p.pub_date < now)

/-- Embedding of PostDeleteView as a handler.  LoginRequiredMixin turns an anonymous
request into a redirect to the login page before anything else runs.  The
form-display request renders the confirmation page for any authenticated
user (no ownership check exists on that path).  The deletion request runs
the overridden delete method: fetch the post or 404, redirect to the index
if the requester is not the author, otherwise delete and redirect to the
index (the success_url). -/
def PostDeleteView.handle (s : Store) (r : Option User) (post_id : Nat)
    (path : Path) : Response × Store :=
  match r with
  | none => (Response.redirect Target.login, s)
  | some u =>
    match path with
    | Path.displayForm =>
      match findPost s post_id with
      | none => (Response.notFound, s)
      | some _ => (Response.html, s)
    | Path.perform =>
      match findPost s post_id with
      | none => (Response.notFound, s)
      | some post =>
        if u.id != post.author then
          (Response.redirect Target.index, s)
        else
          (Response.redirect Target.index,
           { s with posts := s.posts.filter (fun p => p.id != post_id) })

/-- Embedding of PostUpdateView as a handler.  The overridden dispatch runs first, before
the login check further down the method resolution order: it fetches the
post or 404s, and redirects any requester other than the author to the post
detail page.  Only then does LoginRequiredMixin act (vacuously, since the
author is authenticated).  The form-display request renders the edit form;
the perform request applies the validated form and redirects to the post
detail page (the success_url). -/
def PostUpdateView.handle (s : Store) (r : Option User) (post_id : Nat)
    (path : Path) (newText : String) : Response × Store :=
  match findPost s post_id with
  | none => (Response.notFound, s)
  | some post =>
    if !(userEq r post.author) then
      (Response.redirect (Target.postDetail post_id), s)
    else
      match r with
      | none => (Response.redirect Target.login, s)
      | some _ =>
        match path with
        | Path.displayForm => (Response.html, s)
        | Path.perform =>
          (Response.redirect (Target.postDetail post_id),
           { s with posts := (List.map
               (fun p => if p.id == post_id then { p with text := newText } else p) s.posts) })

/-- Embedding of CommentDeleteView as a handler.  LoginRequiredMixin runs first.  The
form-display request renders the confirmation page for any authenticated
user (no ownership check on that path).  The deletion request runs the
overridden delete method: fetch the comment or 404, redirect to the post
detail page if the requester is not the author, otherwise delete and
redirect to the post detail page (the success_url). -/
def CommentDeleteView.handle (s : Store) (r : Option User) (post_id : Nat)
    (comment_pk : Nat) (path : Path) : Response × Store :=
  match r with
  | none => (Response.redirect Target.login, s)
  | some u =>
    match path with
    | Path.displayForm =>
      match findComment s comment_pk with
      | none => (Response.notFound, s)
      | some _ => (Response.html, s)
    | Path.perform =>
      match findComment s comment_pk with
      | none => (Response.notFound, s)
      | some c =>
        if u.id != c.author then
          (Response.redirect (Target.postDetail post_id), s)
        else
          (Response.redirect (Target.postDetail post_id),
           { s with comments := s.comments.filter (fun x => x.id != comment_pk) })

/-- Embedding of CommentUpdateView as a handler.  Like PostUpdateView, the overridden
dispatch runs before the login check: fetch the comment or 404, redirect a
requester other than the author to the post detail page, then continue to
the form paths. -/
def CommentUpdateView.handle (s : Store) (r : Option User) (post_id : Nat)
    (comment_pk : Nat) (path : Path) (newText : String) : Response × Store :=
  match findComment s comment_pk with
  | none => (Response.notFound, s)
  | some c =>
    if !(userEq r c.author) then
      (Response.redirect (Target.postDetail post_id), s)
    else
      match r with
      | none => (Response.redirect Target.login, s)
      | some _ =>
        match path with
        | Path.displayForm => (Response.html, s)
        | Path.perform =>
          (Response.redirect (Target.postDetail post_id),
           { s with comments := (List.map
               (fun x => if x.id == comment_pk then { x with text := newText } else x) s.comments) })

/-- The fields of a validated post-creation form. -/
structure PostForm where
  category : Nat
  is_published : Bool
  pub_date : Int
  text : String
deriving DecidableEq, Repr

/-- A fresh primary key for a new post. -/
def freshPostId (s : Store) : Nat :=
  s.posts.foldr (fun p m => max (p.id + 1) m) 0

/-- A fresh primary key for a new comment. -/
def freshCommentId (s : Store) : Nat :=
  s.comments.foldr (fun c m => max (c.id + 1) m) 0

/-- Embedding of PostCreateView as a handler.  LoginRequiredMixin redirects an anonymous
request to the login page.  On a validated form, form_valid sets the
instance author to the requesting user before saving, and the success url
is the profile page of the requesting user. -/
def PostCreateView.handle (s : Store) (r : Option User) (f : PostForm) :
    Response × Store :=
  match r with
  | none => (Response.redirect Target.login, s)
  | some u =>
    (Response.redirect (Target.profile u.username),
     { s with posts := s.posts ++
         [{ id := freshPostId s, author := u.id, category := f.category,
            is_published := f.is_published, pub_date := f.pub_date,
            text := f.text }] })

/-- Embedding of CommentCreateView as a handler.  LoginRequiredMixin redirects an
anonymous request to the login page.  On a validated form, form_valid
fetches the target post by the post_id URL argument with
get_object_or_404(Post, pk=...) with no further filter, sets the instance
post to it and the instance author to the requesting user, and the success
url is the post detail page. -/
def CommentCreateView.handle (s : Store) (r : Option User) (post_id : Nat)
    (text : String) : Response × Store :=
  match r with
  | none => (Response.redirect Target.login, s)
  | some u =>
    match findPost s post_id with
    | none => (Response.notFound, s)
    | some _ =>
      (Response.redirect (Target.postDetail post_id),
       { s with comments := s.comments ++
           [{ id := freshCommentId s, post := post_id, author := u.id,
              text := text }] })

/-- A list item produced by a listing handler: the post, plus the
comment-count value when the handler annotated the queryset with it. -/
structure PostItem where
  post : Post
  comment_count : Option Nat
deriving DecidableEq, Repr

/-- The add_comment_count_annotation helper shared by the listing views:
annotate every item of the queryset with Count over its comments. -/
def add_comment_count (s : Store) (qs : List Post) : List PostItem :=
  qs.map (fun p => { post := p, comment_count := some (commentCountOf s p.id) })

/-- Embedding of BlogIndexListView.get_queryset: the mixin queryset further filtered by
category__is_published=True, annotated with the comment count. -/
def BlogIndexListView.get_queryset (s : Store) (now : Int) : List PostItem :=
  add_comment_count s
    ((PostsQuerySetMixin.get_queryset s now).filter
      (fun p => categoryIsPublished s p.category))

/-- Embedding of BlogCategoryListView.get_queryset: the mixin queryset further filtered
by category__slug=slug, annotated with the comment count. -/
def BlogCategoryListView.get_queryset (s : Store) (now : Int) (slug : String) :
    List PostItem :=
  add_comment_count s
    ((PostsQuerySetMixin.get_queryset s now).filter
      (fun p => categorySlugOf s p.category == some slug))

/-- The category listing as a whole response: get_context_data raises a 404
(none here) unless a published category with the requested slug exists, so
the page either 404s or shows the queryset. -/
def BlogCategoryListView.handle (s : Store) (now : Int) (slug : String) :
    Option (List PostItem) :=
  match s.categories.find? (fun c => c.slug == slug && c.is_published) with
  | none => none
  | some _ => some (BlogCategoryListView.get_queryset s now slug)

/-- Embedding of AuthorProfileListView.get_queryset: when the username of the requesting
user equals the username URL argument, all posts of that user, unfiltered
and without the comment-count annotation; otherwise the mixin queryset
filtered by author__username=username and annotated with the comment
count. -/
def AuthorProfileListView.get_queryset (s : Store) (r : Option User)
    (now : Int) (username : String) : List PostItem :=
  if usernameOf r == username then
    match r with
    | some u =>
      (s.posts.filter (fun p => p.author == u.id)).map
        (fun p => { post := p, comment_count := none })
    | none => []
  else
    add_comment_count s
      ((PostsQuerySetMixin.get_queryset s now).filter
        (fun p => authorUsernameOf s p.author == some username))

/-- The profile listing as a whole response: get_context_data raises a 404
(none here) unless a user with the requested username exists. -/
def AuthorProfileListView.handle (s : Store) (r : Option User) (now : Int)
    (username : String) : Option (List PostItem) :=
  match s.users.find? (fun u => u.username == username) with
  | none => none
  | some _ => some (AuthorProfileListView.get_queryset s r now username)

/-- Embedding of PostDetailView.get_object: fetch the post by pk or 404; return it to its
author unconditionally; for any other requester, fetch again with
is_published=True, category__is_published=True and pub_date__lt=now (or
404). -/
def PostDetailView.get_object (s : Store) (now : Int) (r : Option User)
    (post_id : Nat) : Option Post :=
  match findPost s post_id with
  | none => none
  | some post =>
    if userEq r post.author then some post
    else if strictVisibilityFilter s now post then some post
    else none

/-- The page size shared by the listing views. -/
def PAGINATED_BY : Nat := 10

/-- One page of a paginated listing: Django pages are 1-indexed and each
holds at most the page size. -/
def paginate (k : Nat) (page : Nat) (xs : List α) : List α :=
  (xs.drop ((page - 1) * k)).take k

/-! Concrete fixtures used by witnesses and counterexamples. -/

/-- Fixture: the user alice, author of every fixture post. -/
def user1 : User := { id := 1, username := "alice" }

/-- Fixture: the user bob, who authors nothing. -/
def user2 : User := { id := 2, username := "bob" }

/-- Fixture: a published category. -/
def cat1 : Category := { id := 1, slug := "food", is_published := true }

/-- Fixture: an unpublished category. -/
def cat2 : Category := { id := 2, slug := "hidden", is_published := false }

/-- Fixture: a published past-dated post by alice in the published
category. -/
def post1 : Post :=
  { id := 1, author := 1, category := 1, is_published := true,
    pub_date := 0, text := "p1" }

/-- Fixture: a published past-dated post by alice in the unpublished
category. -/
def post2 : Post :=
  { id := 2, author := 1, category := 2, is_published := true,
    pub_date := 0, text := "p2" }

/-- Fixture: a future-dated post by alice in the published category. -/
def post3 : Post :=
  { id := 3, author := 1, category := 1, is_published := true,
    pub_date := 100, text := "p3" }

/-- Fixture: a comment by alice on the first post. -/
def comment1 : Comment := { id := 1, post := 1, author := 1, text := "c1" }

/-- Fixture store combining all the records above. -/
def store1 : Store :=
  { users := [user1, user2], categories := [cat1, cat2],
    posts := [post1, post2, post3], comments := [comment1] }

/-- Fixture form text submitted in edit requests. -/
def sampleText : String := "tx"

/-- Fixture comment text submitted in comment-create requests. -/
def hiText : String := "hi"

/-- Fixture slug of the published category. -/
def foodSlug : String := "food"

/-- Fixture username of alice. -/
def aliceName : String := "alice"

/-! Helper lemmas shared by the theorems below. -/

/-- Membership in an annotated queryset: the underlying post belongs to the
queryset and the annotated value is the comment count from the store. -/
theorem mem_add_comment_count {s : Store} {qs : List Post} {it : PostItem}
    (h : it ∈ add_comment_count s qs) :
    it.post ∈ qs ∧ it.comment_count = some (commentCountOf s it.post.id) := by
  rcases List.mem_map.mp h with ⟨p, hp, rfl⟩
  exact ⟨hp, rfl⟩

/-- Membership in the mixin queryset: the post is stored, published and not
future-dated. -/
theorem mem_mixin_queryset {s : Store} {now : Int} {p : Post}
    (h : p ∈ PostsQuerySetMixin.get_queryset s now) :
    p ∈ s.posts ∧ p.is_published = true ∧ p.pub_date ≤ now := by
  rcases List.mem_filter.mp h with ⟨hmem, hcond⟩
  simp only [Bool.and_eq_true, decide_eq_true_eq] at hcond
  exact ⟨hmem, hcond.1, hcond.2⟩

/-- Claim C1: every mutation-performing request (post delete, post update,
comment delete, comment update) by an authenticated user who is not the
author of the target entity returns a redirect, to the index page for the
post-delete handler and to the post detail page for the others, and leaves
the store unchanged. -/
theorem C1_nonauthor_mutation_redirects_and_preserves_store
    (s : Store) (u : User) (pid cid : Nat) (post : Post) (c : Comment)
    (tx : String)
    (hp : findPost s pid = some post) (hpa : u.id ≠ post.author)
    (hc : findComment s cid = some c) (hca : u.id ≠ c.author) :
    PostDeleteView.handle s (some u) pid Path.perform
      = (Response.redirect Target.index, s) ∧
    PostUpdateView.handle s (some u) pid Path.perform tx
      = (Response.redirect (Target.postDetail pid), s) ∧
    CommentDeleteView.handle s (some u) pid cid Path.perform
      = (Response.redirect (Target.postDetail pid), s) ∧
    CommentUpdateView.handle s (some u) pid cid Path.perform tx
      = (Response.redirect (Target.postDetail pid), s) := by
  refine ⟨?_, ?_, ?_, ?_⟩
  · simp [PostDeleteView.handle, hp, hpa]
  · simp [PostUpdateView.handle, hp, userEq, hpa]
  · simp [CommentDeleteView.handle, hc, hca]
  · simp [CommentUpdateView.handle, hc, userEq, hca]

/-- Witness for claim C1 on the fixture store: bob attempts to delete and
edit the post and comment of alice. -/
theorem C1_witness :
    PostDeleteView.handle store1 (some user2) 1 Path.perform
      = (Response.redirect Target.index, store1) ∧
    PostUpdateView.handle store1 (some user2) 1 Path.perform sampleText
      = (Response.redirect (Target.postDetail 1), store1) ∧
    CommentDeleteView.handle store1 (some user2) 1 1 Path.perform
      = (Response.redirect (Target.postDetail 1), store1) ∧
    CommentUpdateView.handle store1 (some user2) 1 1 Path.perform sampleText
      = (Response.redirect (Target.postDetail 1), store1) :=
  C1_nonauthor_mutation_redirects_and_preserves_store store1 user2 1 1
    post1 comment1 sampleText (by decide) (by decide) (by decide) (by decide)

/-- Counterexample to claim C2 as stated: on the form-display path of the
post-delete and comment-delete handlers no ownership check runs, so an
authenticated non-author is not turned away there; the confirmation page is
rendered for bob even though alice authored the entities. -/
theorem C2_counterexample :
    user2.id ≠ post1.author ∧ user2.id ≠ comment1.author ∧
    PostDeleteView.handle store1 (some user2) 1 Path.displayForm
      = (Response.html, store1) ∧
    CommentDeleteView.handle store1 (some user2) 1 1 Path.displayForm
      = (Response.html, store1) := by
  decide

/-- Claim C2 as amended: the update handlers enforce the ownership check on
both the form-display path and the perform path (their dispatch override
covers every request), while the delete handlers enforce it only on the
perform path; on every path where the check runs, a non-author is
redirected and the store is unchanged. -/
theorem C2_amended_ownership_guard_paths
    (s : Store) (u : User) (pid cid : Nat) (post : Post) (c : Comment)
    (tx : String)
    (hp : findPost s pid = some post) (hpa : u.id ≠ post.author)
    (hc : findComment s cid = some c) (hca : u.id ≠ c.author) :
    PostUpdateView.handle s (some u) pid Path.displayForm tx
      = (Response.redirect (Target.postDetail pid), s) ∧
    PostUpdateView.handle s (some u) pid Path.perform tx
      = (Response.redirect (Target.postDetail pid), s) ∧
    CommentUpdateView.handle s (some u) pid cid Path.displayForm tx
      = (Response.redirect (Target.postDetail pid), s) ∧
    CommentUpdateView.handle s (some u) pid cid Path.perform tx
      = (Response.redirect (Target.postDetail pid), s) ∧
    PostDeleteView.handle s (some u) pid Path.perform
      = (Response.redirect Target.index, s) ∧
    CommentDeleteView.handle s (some u) pid cid Path.perform
      = (Response.redirect (Target.postDetail pid), s) := by
  refine ⟨?_, ?_, ?_, ?_, ?_, ?_⟩
  · simp [PostUpdateView.handle, hp, userEq, hpa]
  · simp [PostUpdateView.handle, hp, userEq, hpa]
  · simp [CommentUpdateView.handle, hc, userEq, hca]
  · simp [CommentUpdateView.handle, hc, userEq, hca]
  · simp [PostDeleteView.handle, hp, hpa]
  · simp [CommentDeleteView.handle, hc, hca]

/-- Witness for the amended claim C2 on the fixture store. -/
theorem C2_amended_witness :
    PostUpdateView.handle store1 (some user2) 1 Path.displayForm sampleText
      = (Response.redirect (Target.postDetail 1), store1) ∧
    PostUpdateView.handle store1 (some user2) 1 Path.perform sampleText
      = (Response.redirect (Target.postDetail 1), store1) ∧
    CommentUpdateView.handle store1 (some user2) 1 1 Path.displayForm sampleText
      = (Response.redirect (Target.postDetail 1), store1) ∧
    CommentUpdateView.handle store1 (some user2) 1 1 Path.perform sampleText
      = (Response.redirect (Target.postDetail 1), store1) ∧
    PostDeleteView.handle store1 (some user2) 1 Path.perform
      = (Response.redirect Target.index, store1) ∧
    CommentDeleteView.handle store1 (some user2) 1 1 Path.perform
      = (Response.redirect (Target.postDetail 1), store1) :=
  C2_amended_ownership_guard_paths store1 user2 1 1 post1 comment1 sampleText
    (by decide) (by decide) (by decide) (by decide)

/-- Counterexample to claim C3 as stated: at the boundary instant where the
publish timestamp equals now, the post passes the visibility filter of the
specification (timestamp less than or equal to now), yet the detail view
returns a not-found response to a non-author, because its query uses a
strict pub_date__lt=now condition. -/
theorem C3_counterexample :
    user2.id ≠ post1.author ∧
    specVisibilityFilter store1 0 post1 = true ∧
    PostDetailView.get_object store1 0 (some user2) 1 = none := by
  decide

/-- Claim C3 as amended: the detail view returns the post to its author
unconditionally; to any other requester it returns the post exactly when
the post is published, its category is published and its publish timestamp
is strictly earlier than now, and a not-found response otherwise. -/
theorem C3_amended_detail_access
    (s : Store) (now : Int) (r : Option User) (pid : Nat) (post : Post)
    (hp : findPost s pid = some post) :
    (userEq r post.author = true →
      PostDetailView.get_object s now r pid = some post) ∧
    (userEq r post.author = false →
      (PostDetailView.get_object s now r pid = some post ↔
        strictVisibilityFilter s now post = true) ∧
      (strictVisibilityFilter s now post = false →
        PostDetailView.get_object s now r pid = none)) := by
  constructor
  · intro hauth
    simp [PostDetailView.get_object, hp, hauth]
  · intro hauth
    constructor
    · constructor
      · intro hobj
        by_contra hvis
        simp [PostDetailView.get_object, hp, hauth,
          Bool.eq_false_iff.mpr hvis] at hobj
      · intro hvis
        simp [PostDetailView.get_object, hp, hauth, hvis]
    · intro hvis
      simp [PostDetailView.get_object, hp, hauth, hvis]

/-- Witness for the amended claim C3 on the fixture store: alice sees the
future-dated post, bob is turned away from it with a not-found response. -/
theorem C3_amended_witness :
    PostDetailView.get_object store1 10 (some user1) 3 = some post3 ∧
    PostDetailView.get_object store1 10 (some user2) 3 = none :=
  ⟨(C3_amended_detail_access store1 10 (some user1) 3 post3 (by decide)).1
      (by decide),
   ((C3_amended_detail_access store1 10 (some user2) 3 post3 (by decide)).2
      (by decide)).2 (by decide)⟩

/-- Counterexample to claim C4 as stated: the profile listing viewed by a
user other than the profile owner is a public listing, yet it applies no
category filter; a post whose category is unpublished appears in it. -/
theorem C4_counterexample :
    (usernameOf (some user2) == "alice") = false ∧
    categoryIsPublished store1 post2.category = false ∧
    AuthorProfileListView.handle store1 (some user2) 10 aliceName
      = some [{ post := post1, comment_count := some 1 },
              { post := post2, comment_count := some 0 }] := by
  decide

/-- Claim C4 as amended: every post shown by the index listing is published,
not future-dated and in a published category; every post shown by the
category listing likewise (the whole page 404s unless the requested
category is published; category slugs are assumed unique, as the database
enforces); every post shown on a profile page to a requester other than
the owner is published and not future-dated, but its category need not be
published. -/
theorem C4_amended_public_listing_filter
    (s : Store) (now : Int) (slug username : String) (r : Option User)
    (it : PostItem)
    (hnodup : (s.categories.map Category.slug).Nodup) :
    (it ∈ BlogIndexListView.get_queryset s now →
      it.post.is_published = true ∧ it.post.pub_date ≤ now ∧
      categoryIsPublished s it.post.category = true) ∧
    (∀ l, BlogCategoryListView.handle s now slug = some l → it ∈ l →
      it.post.is_published = true ∧ it.post.pub_date ≤ now ∧
      categoryIsPublished s it.post.category = true) ∧
    ((usernameOf r == username) = false →
      it ∈ AuthorProfileListView.get_queryset s r now username →
      it.post.is_published = true ∧ it.post.pub_date ≤ now) := by
  refine ⟨?_, ?_, ?_⟩
  · intro h
    obtain ⟨hmem, -⟩ := mem_add_comment_count h
    obtain ⟨hmix, hcat⟩ := List.mem_filter.mp hmem
    obtain ⟨-, hpub, hdate⟩ := mem_mixin_queryset hmix
    exact ⟨hpub, hdate, hcat⟩
  · intro l hl hit
    unfold BlogCategoryListView.handle at hl
    cases hfind : s.categories.find? (fun c => c.slug == slug && c.is_published) with
    | none => rw [hfind] at hl; cases hl
    | some cpage =>
      rw [hfind] at hl
      obtain rfl : BlogCategoryListView.get_queryset s now slug = l :=
        Option.some.inj hl
      have hcpage := List.find?_some hfind
      simp only [Bool.and_eq_true, beq_iff_eq] at hcpage
      have hcpagemem := List.mem_of_find?_eq_some hfind
      obtain ⟨hmem, -⟩ := mem_add_comment_count hit
      obtain ⟨hmix, hslug⟩ := List.mem_filter.mp hmem
      obtain ⟨-, hpub, hdate⟩ := mem_mixin_queryset hmix
      refine ⟨hpub, hdate, ?_⟩
      rw [beq_iff_eq] at hslug
      unfold categorySlugOf at hslug
      obtain ⟨cpost, hcpost, hcpostslug⟩ := Option.map_eq_some'.mp hslug
      have hcpostmem := List.mem_of_find?_eq_some hcpost
      have heqc : cpost = cpage :=
        List.inj_on_of_nodup_map hnodup hcpostmem hcpagemem
          (by rw [hcpostslug, hcpage.1])
      unfold categoryIsPublished
      rw [hcpost, heqc]
      exact hcpage.2
  · intro hne hit
    simp only [AuthorProfileListView.get_queryset, hne, Bool.false_eq_true,
      if_false] at hit
    obtain ⟨hmem, -⟩ := mem_add_comment_count hit
    obtain ⟨hmix, -⟩ := List.mem_filter.mp hmem
    obtain ⟨-, hpub, hdate⟩ := mem_mixin_queryset hmix
    exact ⟨hpub, hdate⟩

/-- Witness for the amended claim C4 on the fixture store: the post shown by
the index listing is published, past-dated and in a published category. -/
theorem C4_amended_witness :
    post1.is_published = true ∧ post1.pub_date ≤ (10 : Int) ∧
    categoryIsPublished store1 post1.category = true :=
  (C4_amended_public_listing_filter store1 10 foodSlug aliceName (some user2)
      { post := post1, comment_count := some 1 } (by decide)).1 (by decide)

/-- Counterexample to claim C5 as stated: when a profile owner views their
own profile, the handler returns the raw posts of that user with no
comment-count value even though a comment exists in the store. -/
theorem C5_counterexample :
    commentCountOf store1 1 = 1 ∧
    AuthorProfileListView.get_queryset store1 (some user1) 10 aliceName
      = [{ post := post1, comment_count := none },
         { post := post2, comment_count := none },
         { post := post3, comment_count := none }] := by
  decide

/-- Claim C5 as amended: items of the index listing, the category listing
and a profile listing viewed by a non-owner carry a comment-count value
that equals the number of comments associated with the post in the store;
items of a profile listing viewed by its owner carry no comment-count
value. -/
theorem C5_amended_comment_count
    (s : Store) (now : Int) (slug username : String) (r : Option User)
    (u : User) (it : PostItem) :
    (it ∈ BlogIndexListView.get_queryset s now →
      it.comment_count = some (commentCountOf s it.post.id)) ∧
    (∀ l, BlogCategoryListView.handle s now slug = some l → it ∈ l →
      it.comment_count = some (commentCountOf s it.post.id)) ∧
    ((usernameOf r == username) = false →
      it ∈ AuthorProfileListView.get_queryset s r now username →
      it.comment_count = some (commentCountOf s it.post.id)) ∧
    (it ∈ AuthorProfileListView.get_queryset s (some u) now u.username →
      it.comment_count = none) := by
  refine ⟨?_, ?_, ?_, ?_⟩
  · intro h
    exact (mem_add_comment_count h).2
  · intro l hl hit
    unfold BlogCategoryListView.handle at hl
    cases hfind : s.categories.find? (fun c => c.slug == slug && c.is_published) with
    | none => rw [hfind] at hl; cases hl
    | some cpage =>
      rw [hfind] at hl
      obtain rfl : BlogCategoryListView.get_queryset s now slug = l :=
        Option.some.inj hl
      exact (mem_add_comment_count hit).2
  · intro hne hit
    simp only [AuthorProfileListView.get_queryset, hne, Bool.false_eq_true,
      if_false] at hit
    exact (mem_add_comment_count hit).2
  · intro hit
    simp only [AuthorProfileListView.get_queryset, usernameOf,
      beq_self_eq_true, if_true] at hit
    obtain ⟨p, -, rfl⟩ := List.mem_map.mp hit
    rfl

/-- Witness for the amended claim C5 on the fixture store: the index item
for the first post carries the count of its one comment, and the items
alice sees on her own profile carry none. -/
theorem C5_amended_witness :
    ({ post := post1, comment_count := some 1 } : PostItem).comment_count
      = some (commentCountOf store1 post1.id) ∧
    ({ post := post3, comment_count := none } : PostItem).comment_count
      = none :=
  ⟨(C5_amended_comment_count store1 10 foodSlug aliceName (some user2) user1
      { post := post1, comment_count := some 1 }).1 (by decide),
   (C5_amended_comment_count store1 10 foodSlug aliceName (some user2) user1
      { post := post3, comment_count := none }).2.2.2 (by decide)⟩

/-- Claim C6: a post whose publish timestamp is strictly in the future
appears in no index listing, no category listing and no profile listing
viewed by a non-owner, but it does appear when its author views their own
profile. -/
theorem C6_future_post_visibility
    (s : Store) (now : Int) (p : Post) (slug username : String)
    (r : Option User) (u : User) (it : PostItem)
    (hfut : now < p.pub_date) :
    (it ∈ BlogIndexListView.get_queryset s now → it.post ≠ p) ∧
    (∀ l, BlogCategoryListView.handle s now slug = some l → it ∈ l →
      it.post ≠ p) ∧
    ((usernameOf r == username) = false →
      it ∈ AuthorProfileListView.get_queryset s r now username →
      it.post ≠ p) ∧
    (p ∈ s.posts → p.author = u.id →
      ({ post := p, comment_count := none } : PostItem)
        ∈ AuthorProfileListView.get_queryset s (some u) now u.username) := by
  have hne : ∀ q : Post, q.pub_date ≤ now → q ≠ p := by
    intro q hq hcontra
    rw [hcontra] at hq
    exact absurd hq (not_le.mpr hfut)
  refine ⟨?_, ?_, ?_, ?_⟩
  · intro h
    obtain ⟨hmem, -⟩ := mem_add_comment_count h
    obtain ⟨hmix, -⟩ := List.mem_filter.mp hmem
    exact hne it.post (mem_mixin_queryset hmix).2.2
  · intro l hl hit
    unfold BlogCategoryListView.handle at hl
    cases hfind : s.categories.find? (fun c => c.slug == slug && c.is_published) with
    | none => rw [hfind] at hl; cases hl
    | some cpage =>
      rw [hfind] at hl
      obtain rfl : BlogCategoryListView.get_queryset s now slug = l :=
        Option.some.inj hl
      obtain ⟨hmem, -⟩ := mem_add_comment_count hit
      obtain ⟨hmix, -⟩ := List.mem_filter.mp hmem
      exact hne it.post (mem_mixin_queryset hmix).2.2
  · intro hnowner hit
    simp only [AuthorProfileListView.get_queryset, hnowner, Bool.false_eq_true,
      if_false] at hit
    obtain ⟨hmem, -⟩ := mem_add_comment_count hit
    obtain ⟨hmix, -⟩ := List.mem_filter.mp hmem
    exact hne it.post (mem_mixin_queryset hmix).2.2
  · intro hmem hauthor
    simp only [AuthorProfileListView.get_queryset, usernameOf,
      beq_self_eq_true, if_true]
    exact List.mem_map.mpr
      ⟨p, List.mem_filter.mpr ⟨hmem, by rw [hauthor]; exact beq_self_eq_true _⟩,
       rfl⟩

/-- Witness for claim C6 on the fixture store: the future-dated post of
alice is on her own profile page. -/
theorem C6_witness :
    ({ post := post3, comment_count := none } : PostItem)
      ∈ AuthorProfileListView.get_queryset store1 (some user1) 10 aliceName :=
  (C6_future_post_visibility store1 10 post3 foodSlug aliceName (some user2)
      user1 { post := post1, comment_count := some 1 } (by decide)).2.2.2
    (by decide) (by decide)

/-- Claim C7: the comment-create handler checks only that the target post id
exists; for any authenticated user and any stored post, with no visibility
or ownership hypothesis, it appends a comment whose post reference is the
URL post id and whose author is the requesting user, then redirects to the
post detail page; a missing post id yields a not-found response with the
store unchanged. -/
theorem C7_comment_create_checks_only_existence
    (s : Store) (u : User) (pid : Nat) (tx : String) :
    (findPost s pid = none →
      CommentCreateView.handle s (some u) pid tx = (Response.notFound, s)) ∧
    (∀ post, findPost s pid = some post →
      CommentCreateView.handle s (some u) pid tx =
        (Response.redirect (Target.postDetail pid),
         { s with comments := s.comments ++
             [{ id := freshCommentId s, post := pid, author := u.id,
                text := tx }] })) := by
  constructor
  · intro hnone
    simp [CommentCreateView.handle, hnone]
  · intro post hpost
    simp [CommentCreateView.handle, hpost]

/-- Witness for claim C7 on the fixture store: bob comments on the
future-dated, not publicly visible post of alice, and the comment is
created with bob as its author. -/
theorem C7_witness :
    CommentCreateView.handle store1 (some user2) 3 hiText =
      (Response.redirect (Target.postDetail 3),
       { store1 with comments := store1.comments ++
           [{ id := freshCommentId store1, post := 3, author := user2.id,
              text := "hi" }] }) :=
  (C7_comment_create_checks_only_existence store1 user2 3 hiText).2 post3
    (by decide)

/-- Claim C8: a validated post-creation request by an authenticated user
appends exactly one post whose author field is the requesting user, and
redirects to the profile page of that user. -/
theorem C8_created_post_author_is_requester
    (s : Store) (u : User) (f : PostForm) :
    ∃ p : Post,
      (PostCreateView.handle s (some u) f).2.posts = s.posts ++ [p] ∧
      p.author = u.id ∧
      (PostCreateView.handle s (some u) f).1
        = Response.redirect (Target.profile u.username) := by
  exact ⟨_, rfl, rfl, rfl⟩

/-- Counterexample to claim C9 as stated: an unauthenticated update request
on an existing post is redirected to the post detail page, not to the login
page, because the dispatch override runs its ownership comparison (which an
anonymous requester always fails) before the login check. -/
theorem C9_counterexample :
    PostUpdateView.handle store1 none 1 Path.perform sampleText
      = (Response.redirect (Target.postDetail 1), store1) ∧
    Response.redirect (Target.postDetail 1) ≠ Response.redirect Target.login := by
  decide

/-- Claim C9 as amended: no unauthenticated request ever mutates the store;
the create and delete handlers redirect an unauthenticated request to the
login page, while the update handlers redirect it to the post detail page
when the target exists and return not-found when it does not. -/
theorem C9_amended_unauthenticated_requests
    (s : Store) (pid cid : Nat) (tx : String) (f : PostForm) (path : Path) :
    PostCreateView.handle s none f = (Response.redirect Target.login, s) ∧
    CommentCreateView.handle s none pid tx
      = (Response.redirect Target.login, s) ∧
    PostDeleteView.handle s none pid path
      = (Response.redirect Target.login, s) ∧
    CommentDeleteView.handle s none pid cid path
      = (Response.redirect Target.login, s) ∧
    PostUpdateView.handle s none pid path tx =
      ((match findPost s pid with
        | none => Response.notFound
        | some _ => Response.redirect (Target.postDetail pid)), s) ∧
    CommentUpdateView.handle s none pid cid path tx =
      ((match findComment s cid with
        | none => Response.notFound
        | some _ => Response.redirect (Target.postDetail pid)), s) := by
  refine ⟨rfl, rfl, rfl, rfl, ?_, ?_⟩
  · cases hfind : findPost s pid with
    | none => simp [PostUpdateView.handle, hfind]
    | some post => simp [PostUpdateView.handle, hfind, userEq]
  · cases hfind : findComment s cid with
    | none => simp [CommentUpdateView.handle, hfind]
    | some c => simp [CommentUpdateView.handle, hfind, userEq]

/-- Claim C10: every page of every listing handler holds at most ten
items. -/
theorem C10_page_size_at_most_ten
    (s : Store) (now : Int) (page : Nat) (slug username : String)
    (r : Option User) :
    (paginate PAGINATED_BY page (BlogIndexListView.get_queryset s now)).length
      ≤ 10 ∧
    (paginate PAGINATED_BY page
      ((BlogCategoryListView.handle s now slug).getD [])).length ≤ 10 ∧
    (paginate PAGINATED_BY page
      ((AuthorProfileListView.handle s r now username).getD [])).length
      ≤ 10 := by
  refine ⟨?_, ?_, ?_⟩ <;>
    exact le_trans (List.length_take_le _ _) (le_refl 10)

end Blogicum
